import Mathlib

/-!
Verification development for the measurement-transformation pipeline of
`csv_plotter.py` (`CSVEventHandler.plot_data`, lines 524-615).

The numeric pipeline is embedded shallowly over `ℚ`: every arithmetic step of
the Python code (NumPy / SciPy float operations) is transcribed as the exact
rational operation it denotes.  Division by zero in NumPy does not raise (it
yields inf/NaN with a warning), so control flow never depends on a division;
`ℚ`'s total division is therefore an adequate model for every control-flow and
shape property proved below.

Exceptions are modelled with `Except`: the only raising step in the
computation section of `plot_data` (lines 530-577) is
`savgol_filter(diameter, 5, 2)`, which raises `ValueError` when the series has
fewer than 5 points (SciPy, mode `interp`: the window length must not exceed
the number of samples).  The error names come from the spec's error taxonomy
(`InsufficientDataError`, `InvalidReferenceError`); which of them the code can
actually produce is taken from the code alone.
-/

namespace CsvPlotter

/-- Time unit combo box choices: `s`, `min`, `hour` (line 305). -/
inductive TimeUnit
| s
| min
| hour
deriving DecidableEq

/-- Diameter unit combo box choices: `mm`, `μm` (line 311). -/
inductive DiameterUnit
| mm
| um
deriving DecidableEq

/-- Strain-rate unit combo box choices (line 317):
`1/s`, `1/min`, `1/hour`, `μm/s`, `μm/min`, `μm/hour`. -/
inductive StrainRateUnit
| perS
| perMin
| perHour
| umPerS
| umPerMin
| umPerHour
deriving DecidableEq

/-- The three unit combo boxes read by `plot_data`. -/
structure UnitSelection where
  timeUnit : TimeUnit
  diameterUnit : DiameterUnit
  strainRateUnit : StrainRateUnit
deriving DecidableEq

/-- The tuple stored in `self.parent.calculated_data` (line 579):
`(time_converted, diameter_converted, diametrical_strain, strain_rate_converted)`. -/
structure DerivedSeries where
  convertedTime : List ℚ
  convertedDiameter : List ℚ
  diametricalStrain : List ℚ
  convertedStrainRate : List ℚ
deriving DecidableEq

/-- Error taxonomy of spec section 7.  The code raises plain library
exceptions; `insufficientData` stands for the `ValueError` raised by
`savgol_filter` on fewer than 5 rows.  `invalidReference` is listed in the
spec; whether the code ever produces it is settled by the theorems below. -/
inductive PipelineError
| insufficientData
| invalidReference
deriving DecidableEq

/-- `pd.read_csv(self.file_path).dropna()` (line 530): a raw row is a pair of
optional numeric cells, and any row with a missing cell is dropped. -/
def dropna (rows : List (Option ℚ × Option ℚ)) : List (ℚ × ℚ) :=
  rows.filterMap fun r =>
    match r with
    | (some t, some d) => some (t, d)
    | _ => none

/-- `savgol_filter(diameter, 5, 2)` (line 536), SciPy default mode `interp`,
on a series of length at least 5.  Interior samples are the quadratic
Savitzky-Golay convolution `(-3, 12, 17, 12, -3) / 35`; the first two and last
two samples are replaced by the least-squares quadratic fitted to the first
(resp. last) five samples, evaluated at the sample position.  The edge rows
are the rows of the hat matrix `A (Aᵀ A)⁻¹ Aᵀ` for the Vandermonde matrix `A`
of `1, x, x²` at `x = 0..4`: with `Aᵀ A = [[5,10,30],[10,30,100],[30,100,354]]`
(determinant 700) the fitted values at positions 0,1,3,4 have the exact
rational coefficient rows used below. -/
def savgolFilter52 (y : List ℚ) : List ℚ :=
  let n := y.length
  let g : Nat → ℚ := fun j => y.getD j 0
  (List.range n).map fun i =>
    if i = 0 then
      (31 * g 0 + 9 * g 1 - 3 * g 2 - 5 * g 3 + 3 * g 4) / 35
    else if i = 1 then
      (9 * g 0 + 13 * g 1 + 12 * g 2 + 6 * g 3 - 5 * g 4) / 35
    else if i = n - 2 then
      (-5 * g (n-5) + 6 * g (n-4) + 12 * g (n-3) + 13 * g (n-2) + 9 * g (n-1)) / 35
    else if i = n - 1 then
      (3 * g (n-5) - 5 * g (n-4) - 3 * g (n-3) + 9 * g (n-2) + 31 * g (n-1)) / 35
    else
      (-3 * g (i-2) + 12 * g (i-1) + 17 * g i + 12 * g (i+1) - 3 * g (i+2)) / 35

/-- `np.gradient(f, x)` (line 564) with the default `edge_order=1`:
one-sided first-order differences at the two ends, and NumPy's second-order
accurate non-uniform interior formula
`a·f[i-1] + b·f[i] + c·f[i+1]` with
`a = -hd/(hs(hs+hd))`, `b = (hd-hs)/(hs·hd)`, `c = hs/(hd(hs+hd))`,
where `hs = x[i]-x[i-1]` and `hd = x[i+1]-x[i]`. -/
def npGradient (f x : List ℚ) : List ℚ :=
  let n := f.length
  let fv : Nat → ℚ := fun j => f.getD j 0
  let xv : Nat → ℚ := fun j => x.getD j 0
  (List.range n).map fun i =>
    if i = 0 then
      (fv 1 - fv 0) / (xv 1 - xv 0)
    else if i = n - 1 then
      (fv (n-1) - fv (n-2)) / (xv (n-1) - xv (n-2))
    else
      let hs := xv i - xv (i-1)
      let hd := xv (i+1) - xv i
      (-hd / (hs * (hs + hd))) * fv (i-1)
        + ((hd - hs) / (hs * hd)) * fv i
        + (hs / (hd * (hs + hd))) * fv (i+1)

/-- The denominators of every quotient appearing in `npGradient` on abscissae
`x` (of length `n ≥ 2`): the forward difference divisor `x[1]-x[0]`, the
backward difference divisor `x[n-1]-x[n-2]`, and for each interior index `i`
the three divisors `hs·(hs+hd)`, `hs·hd`, `hd·(hs+hd)`. -/
def npGradientDivisors (x : List ℚ) : List ℚ :=
  let n := x.length
  let xv : Nat → ℚ := fun j => x.getD j 0
  (xv 1 - xv 0) :: (xv (n-1) - xv (n-2)) ::
    ((List.range n).map fun i =>
      if i = 0 ∨ i = n - 1 then []
      else
        let hs := xv i - xv (i-1)
        let hd := xv (i+1) - xv i
        [hs * (hs + hd), hs * hd, hd * (hs + hd)]).flatten

/-- All elements of a list of rationals are strictly positive. -/
def allPos (l : List ℚ) : Prop :=
  ∀ d ∈ l, 0 < d

instance (l : List ℚ) : Decidable (allPos l) :=
  List.decidableBAll _ l

/-- Time conversion (lines 539-548): `s` leaves the array untouched,
`min` divides by 60, `hour` divides by 3600. -/
def convertTime : TimeUnit → List ℚ → List ℚ
  | .s, time => time
  | .min, time => time.map (fun t => t / 60)
  | .hour, time => time.map (fun t => t / 3600)

/-- `time_factor` recorded alongside the time conversion (lines 541-548). -/
def timeFactor : TimeUnit → ℚ
  | .s => 1
  | .min => 60
  | .hour => 3600

/-- Diameter conversion (lines 551-557): `μm` multiplies the smoothed series
by 1000, `mm` leaves it untouched. -/
def convertDiameter : DiameterUnit → List ℚ → List ℚ
  | .um, d => d.map (fun v => v * 1000)
  | .mm, d => d

/-- Reference-diameter conversion (lines 554, 557): the same multiplier is
applied to `self.initial_diameter`. -/
def convertRefDiameter : DiameterUnit → ℚ → ℚ
  | .um, r => r * 1000
  | .mm, r => r

/-- Strain-rate unit conversion (lines 566-576), transcribed branch by
branch:  `1/s → rate*tf`, `1/min → rate*tf*60`, `1/hour → rate*tf*3600`,
`μm/s → rate*tf*1000`, `μm/min → rate*tf*1000*60`,
`μm/hour → rate*tf*1000*3600`, where `tf` is `time_factor`. -/
def convertStrainRate (sru : StrainRateUnit) (tf : ℚ) (sr : List ℚ) : List ℚ :=
  match sru with
  | .perS => sr.map (fun r => r * tf)
  | .perMin => sr.map (fun r => r * tf * 60)
  | .perHour => sr.map (fun r => r * tf * 3600)
  | .umPerS => sr.map (fun r => r * tf * 1000)
  | .umPerMin => sr.map (fun r => r * tf * 1000 * 60)
  | .umPerHour => sr.map (fun r => r * tf * 1000 * 3600)

/-- The computation section of `plot_data` (lines 532-577) on a cleaned table
of at least 5 rows: smooth the diameter column, convert time and diameter,
form the strain `(d - ref)/ref` elementwise from the converted smoothed
diameter and the converted reference, differentiate the strain against the
original (unconverted) time column, and scale by the selected strain-rate
unit. -/
def computeSeries (cleaned : List (ℚ × ℚ)) (initialDiameter : ℚ)
    (units : UnitSelection) : DerivedSeries :=
  let time := cleaned.map Prod.fst
  let diameterSmooth := savgolFilter52 (cleaned.map Prod.snd)
  let diameterConverted := convertDiameter units.diameterUnit diameterSmooth
  let refConverted := convertRefDiameter units.diameterUnit initialDiameter
  let diametricalStrain :=
    diameterConverted.map (fun d => (d - refConverted) / refConverted)
  { convertedTime := convertTime units.timeUnit time
    convertedDiameter := diameterConverted
    diametricalStrain := diametricalStrain
    convertedStrainRate :=
      convertStrainRate units.strainRateUnit (timeFactor units.timeUnit)
        (npGradient diametricalStrain time) }

/-- The whole pipeline.  The guard models the `ValueError` raised by
`savgol_filter` (line 536) when fewer than 5 rows survive `dropna`; no other
statement of lines 530-577 can raise (NumPy division by zero warns and yields
inf/NaN instead of raising), so on 5 or more rows the computation always
completes and the code performs no check at all on the reference diameter. -/
def transform (rows : List (Option ℚ × Option ℚ)) (initialDiameter : ℚ)
    (units : UnitSelection) : Except PipelineError DerivedSeries :=
  if (dropna rows).length < 5 then
    .error .insufficientData
  else
    .ok (computeSeries (dropna rows) initialDiameter units)

/-- The parent widget state touched by `plot_data`: the matplotlib figure
(abstracted to the series currently drawn into it, `none` when cleared), the
status label text, and the stored `calculated_data`. -/
structure AppState where
  figure : Option DerivedSeries
  labelText : String
  calculatedData : Option DerivedSeries
deriving DecidableEq

/-- The message written to the status label by the `except` handler
(line 615), `"Plotting error: {e}"`. -/
def errorText : PipelineError → String
  | .insufficientData => "Plotting error: insufficient data for smoothing"
  | .invalidReference => "Plotting error: invalid reference diameter"

/-- `plot_data` as a state transition.  `self.parent.figure.clear()` and the
fresh empty subplots (lines 525-526) run before the `try` block, so both
branches start from a cleared figure.  On success the four series are stored
in `calculated_data` (line 579) and drawn (lines 582-585); the label is not
touched.  On any exception the handler (lines 613-615) sets the label to the
error message and returns normally, leaving `calculated_data` untouched and
the figure as cleared.  Axis scales/ranges and rendering are out of scope
(spec section 1). -/
def plotData (st : AppState) (rows : List (Option ℚ × Option ℚ))
    (initialDiameter : ℚ) (units : UnitSelection) : AppState :=
  match transform rows initialDiameter units with
  | .ok ds =>
      { figure := some ds
        labelText := st.labelText
        calculatedData := some ds }
  | .error e =>
      { figure := none
        labelText := errorText e
        calculatedData := st.calculatedData }

/-- The multiplier table of spec section 4.1 step 7, transcribed from the
spec's words (for comparison with `convertStrainRate`): exactly one factor
per strain-rate unit. -/
def specStrainRateMultiplier (units : UnitSelection) : ℚ :=
  match units.strainRateUnit with
  | .perS => timeFactor units.timeUnit
  | .perMin => timeFactor units.timeUnit * 60
  | .perHour => timeFactor units.timeUnit * 3600
  | .umPerS => timeFactor units.timeUnit * 1000
  | .umPerMin => timeFactor units.timeUnit * 1000 * 60
  | .umPerHour => timeFactor units.timeUnit * 1000 * 3600

/-- The diameter unit multiplier table as the spec words it (section 4.1
step 4): `mm → ×1`, `μm → ×1000`, applied to both the smoothed diameter and
the reference diameter (for comparison with `convertDiameter` and
`convertRefDiameter`, which transcribe the code's branches). -/
def specDiameterMultiplier : DiameterUnit → ℚ
  | .mm => 1
  | .um => 1000

/-- Scenario input of spec section 8: five complete rows
`(0,10.0),(1,10.0),(2,10.0),(3,10.0),(4,10.0)`. -/
def constRows : List (Option ℚ × Option ℚ) :=
  [(some 0, some 10), (some 1, some 10), (some 2, some 10),
   (some 3, some 10), (some 4, some 10)]

/-- Three complete rows: fewer than the 5 required by the smoothing window. -/
def rows3 : List (Option ℚ × Option ℚ) :=
  [(some 0, some 10), (some 1, some 10), (some 2, some 10)]

/-- Default unit selection `{s, mm, 1/s}` (first entry of each combo box). -/
def unitsDefault : UnitSelection :=
  { timeUnit := .s, diameterUnit := .mm, strainRateUnit := .perS }

/-- A concrete previously rendered state, used to probe what a failing
invocation does to the stored state. -/
def stalePlot : DerivedSeries :=
  { convertedTime := [0, 1]
    convertedDiameter := [9, 9]
    diametricalStrain := [0, 0]
    convertedStrainRate := [0, 0] }

/-- A parent-widget state holding a successfully rendered plot. -/
def preState : AppState :=
  { figure := some stalePlot
    labelText := "Data plotted"
    calculatedData := some stalePlot }

/-- A freshly initialised parent-widget state (`calculated_data = None`,
line 250). -/
def emptyState : AppState :=
  { figure := none
    labelText := ""
    calculatedData := none }

/-! ## Helper lemmas -/

lemma savgolFilter52_length (y : List ℚ) :
    (savgolFilter52 y).length = y.length := by
  simp [savgolFilter52]

lemma npGradient_length (f x : List ℚ) :
    (npGradient f x).length = f.length := by
  simp [npGradient]

lemma convertTime_eq_map (tu : TimeUnit) (time : List ℚ) :
    convertTime tu time = time.map (fun t => t / timeFactor tu) := by
  cases tu <;> simp [convertTime, timeFactor]

lemma convertDiameter_eq_map (du : DiameterUnit) (d : List ℚ) :
    convertDiameter du d = d.map (fun v => v * specDiameterMultiplier du) := by
  cases du <;> simp [convertDiameter, specDiameterMultiplier]

lemma convertRefDiameter_eq_mul (du : DiameterUnit) (r : ℚ) :
    convertRefDiameter du r = r * specDiameterMultiplier du := by
  cases du <;> simp [convertRefDiameter, specDiameterMultiplier]

lemma convertStrainRate_eq_map (units : UnitSelection) (sr : List ℚ) :
    convertStrainRate units.strainRateUnit (timeFactor units.timeUnit) sr
      = sr.map (fun r => r * specStrainRateMultiplier units) := by
  cases h : units.strainRateUnit <;>
    simp [convertStrainRate, specStrainRateMultiplier, h, mul_assoc]

lemma transform_eq_ok_iff {rows : List (Option ℚ × Option ℚ)} {ref : ℚ}
    {units : UnitSelection} {ds : DerivedSeries} :
    transform rows ref units = Except.ok ds ↔
      5 ≤ (dropna rows).length ∧ ds = computeSeries (dropna rows) ref units := by
  by_cases h : (dropna rows).length < 5
  · simp only [transform, if_pos h]
    constructor
    · intro hc
      exact absurd hc (by simp)
    · rintro ⟨h5, _⟩
      omega
  · simp only [transform, if_neg h]
    constructor
    · intro hok
      injection hok with h1
      exact ⟨by omega, h1.symm⟩
    · rintro ⟨_, rfl⟩
      rfl

lemma transform_eq_error_iff {rows : List (Option ℚ × Option ℚ)} {ref : ℚ}
    {units : UnitSelection} {e : PipelineError} :
    transform rows ref units = Except.error e ↔
      (dropna rows).length < 5 ∧ e = PipelineError.insufficientData := by
  by_cases h : (dropna rows).length < 5 <;> simp [transform, h, eq_comm]

/-! ## Claim theorems -/

/-- Claim C1, counterexample: with reference diameter `0` (and the five-row
scenario input) the pipeline does not fail at all — it returns a
`DerivedSeries`, and in particular does not yield `InvalidReferenceError`.
The code performs no check on the reference diameter; the NumPy division by
zero at line 560 warns and produces non-finite values instead of raising. -/
theorem zero_reference_accepted_counterexample :
    (transform constRows 0 unitsDefault).isOk = true ∧
    transform constRows 0 unitsDefault ≠
      Except.error PipelineError.invalidReference := by
  constructor
  · rfl
  · intro hc
    rw [transform_eq_error_iff] at hc
    exact absurd hc.2 (by simp)

/-- Claim C1, amended: the pipeline performs no reference-diameter
validation.  For every input with at least 5 cleaned rows and every
non-positive reference diameter, the transform still returns a
`DerivedSeries` (whose strain values are meaningless — inf/NaN in the float
code) and never fails with `InvalidReferenceError`. -/
theorem nonpositive_reference_accepted (rows : List (Option ℚ × Option ℚ))
    (ref : ℚ) (units : UnitSelection) (_href : ref ≤ 0)
    (hlen : 5 ≤ (dropna rows).length) :
    (transform rows ref units).isOk = true ∧
    transform rows ref units ≠ Except.error PipelineError.invalidReference := by
  have h5 : ¬ (dropna rows).length < 5 := by omega
  constructor
  · simp [transform, if_neg h5, Except.isOk, Except.toBool]
  · intro hc
    rw [transform_eq_error_iff] at hc
    exact absurd hc.1 h5

/-- Witness for the amended claim C1 at the concrete scenario input with
reference diameter `0`. -/
theorem nonpositive_reference_accepted_witness :
    (transform constRows 0 unitsDefault).isOk = true ∧
    transform constRows 0 unitsDefault ≠
      Except.error PipelineError.invalidReference :=
  nonpositive_reference_accepted constRows 0 unitsDefault (by norm_num)
    (by decide)

/-- Claim C2: for every successful invocation, the converted strain-rate
series is the NumPy gradient (one-sided differences at the two ends, NumPy's
second-order central formula in the interior) of the diametrical strain taken
against the original, unconverted time column, scaled elementwise by exactly
the spec's multiplier: `time_factor` for `1/s`, `time_factor*60` for `1/min`,
`time_factor*3600` for `1/hour`, `time_factor*1000` for `μm/s`,
`time_factor*1000*60` for `μm/min`, `time_factor*1000*3600` for `μm/hour`. -/
theorem strain_rate_is_scaled_gradient (rows : List (Option ℚ × Option ℚ))
    (ref : ℚ) (units : UnitSelection) (ds : DerivedSeries)
    (h : transform rows ref units = Except.ok ds) :
    ds.convertedStrainRate =
      (npGradient ds.diametricalStrain ((dropna rows).map Prod.fst)).map
        (fun r => r * specStrainRateMultiplier units) := by
  obtain ⟨hlen, rfl⟩ := transform_eq_ok_iff.mp h
  simp only [computeSeries]
  exact convertStrainRate_eq_map units _

/-- Witness for claim C2 at the concrete scenario input. -/
theorem strain_rate_is_scaled_gradient_witness :
    (computeSeries (dropna constRows) 10 unitsDefault).convertedStrainRate =
      (npGradient (computeSeries (dropna constRows) 10 unitsDefault).diametricalStrain
        ((dropna constRows).map Prod.fst)).map
        (fun r => r * specStrainRateMultiplier unitsDefault) :=
  strain_rate_is_scaled_gradient constRows 10 unitsDefault
    (computeSeries (dropna constRows) 10 unitsDefault) rfl

/-- Claim C3: the pipeline fails with the insufficient-data error exactly
when fewer than 5 valid rows remain after dropping incomplete rows; in
particular, with 5 or more valid rows this error never occurs (the result is
then a `DerivedSeries`, by `transform_eq_ok_iff`). -/
theorem insufficient_data_iff_lt_five (rows : List (Option ℚ × Option ℚ))
    (ref : ℚ) (units : UnitSelection) :
    transform rows ref units = Except.error PipelineError.insufficientData ↔
      (dropna rows).length < 5 := by
  rw [transform_eq_error_iff]
  simp

/-- Claim C4: for every successful invocation, the converted diameter is the
Savitzky-Golay (window 5, order 2) smoothing of the full raw diameter column
scaled by the diameter-unit multiplier (`×1` for mm, `×1000` for μm), and the
diametrical strain is computed elementwise from it as
`(converted_diameter - ref·m) / (ref·m)` with the same multiplier `m` applied
to the reference diameter; the raw unsmoothed diameter never enters the
strain formula. -/
theorem strain_from_smoothed_diameter (rows : List (Option ℚ × Option ℚ))
    (ref : ℚ) (units : UnitSelection) (ds : DerivedSeries)
    (h : transform rows ref units = Except.ok ds) :
    ds.convertedDiameter =
      (savgolFilter52 ((dropna rows).map Prod.snd)).map
        (fun v => v * specDiameterMultiplier units.diameterUnit) ∧
    ds.diametricalStrain =
      ds.convertedDiameter.map
        (fun d => (d - ref * specDiameterMultiplier units.diameterUnit) /
                  (ref * specDiameterMultiplier units.diameterUnit)) := by
  obtain ⟨hlen, rfl⟩ := transform_eq_ok_iff.mp h
  simp only [computeSeries]
  exact ⟨convertDiameter_eq_map units.diameterUnit _,
    by rw [convertRefDiameter_eq_mul]⟩

/-- Witness for claim C4 at the concrete scenario input. -/
theorem strain_from_smoothed_diameter_witness :
    (computeSeries (dropna constRows) 10 unitsDefault).convertedDiameter =
      (savgolFilter52 ((dropna constRows).map Prod.snd)).map
        (fun v => v * specDiameterMultiplier unitsDefault.diameterUnit) ∧
    (computeSeries (dropna constRows) 10 unitsDefault).diametricalStrain =
      (computeSeries (dropna constRows) 10 unitsDefault).convertedDiameter.map
        (fun d => (d - 10 * specDiameterMultiplier unitsDefault.diameterUnit) /
                  (10 * specDiameterMultiplier unitsDefault.diameterUnit)) :=
  strain_from_smoothed_diameter constRows 10 unitsDefault
    (computeSeries (dropna constRows) 10 unitsDefault) rfl

set_option maxHeartbeats 1000000 in
/-- Claim C7: on the scenario input `(0,10),(1,10),(2,10),(3,10),(4,10)` with
reference diameter `10` mm and units `{s, mm, 1/s}`, the transform returns
zero diametrical strain, zero strain rate, and converted time equal to the
raw time (the window-5 order-2 least-squares smoothing reproduces a constant
series exactly). -/
theorem constant_scenario_all_zero :
    transform constRows 10 unitsDefault =
      Except.ok { convertedTime := [0, 1, 2, 3, 4]
                  convertedDiameter := [10, 10, 10, 10, 10]
                  diametricalStrain := [0, 0, 0, 0, 0]
                  convertedStrainRate := [0, 0, 0, 0, 0] } := by
  norm_num [transform, computeSeries, savgolFilter52, npGradient, convertTime,
    convertDiameter, convertRefDiameter, convertStrainRate, timeFactor, dropna,
    constRows, unitsDefault, List.range_succ, List.filterMap]

/-- Claim C5, counterexample: on a failing invocation the figure does not
retain the last successfully rendered state — `plot_data` clears the figure
(line 525) before the `try` block, so after the failure the figure is empty
even though it held a plot before. -/
theorem failure_clears_figure_counterexample :
    transform rows3 1 unitsDefault =
      Except.error PipelineError.insufficientData ∧
    (plotData preState rows3 1 unitsDefault).figure = none ∧
    preState.figure ≠ none := by
  refine ⟨rfl, rfl, ?_⟩
  simp [preState]

/-- Claim C5, amended: every failing invocation reports the error
synchronously (the status label is set to the error message) and returns
normally (the catch-all handler makes `plot_data` total, so the host process
does not crash), and the stored `calculated_data` is retained; but the figure
is cleared unconditionally at entry, so the last successfully rendered figure
is not retained — after a failure the figure is empty. -/
theorem failure_reports_error_state (st : AppState)
    (rows : List (Option ℚ × Option ℚ)) (ref : ℚ) (units : UnitSelection)
    (e : PipelineError) (h : transform rows ref units = Except.error e) :
    plotData st rows ref units =
      { figure := none
        labelText := errorText e
        calculatedData := st.calculatedData } := by
  simp [plotData, h]

/-- Witness for the amended claim C5 at a concrete failing invocation from a
previously rendered state. -/
theorem failure_reports_error_state_witness :
    plotData preState rows3 1 unitsDefault =
      { figure := none
        labelText := errorText PipelineError.insufficientData
        calculatedData := preState.calculatedData } :=
  failure_reports_error_state preState rows3 1 unitsDefault
    PipelineError.insufficientData rfl

/-- Claim C6: on every successful invocation the four output series all have
the same length as the cleaned input, and the converted time is elementwise
the cleaned time column divided by the selected time factor (index `i` of
each series comes from cleaned row `i`). -/
theorem series_lengths_aligned (rows : List (Option ℚ × Option ℚ)) (ref : ℚ)
    (units : UnitSelection) (ds : DerivedSeries)
    (h : transform rows ref units = Except.ok ds) :
    ds.convertedTime.length = (dropna rows).length ∧
    ds.convertedDiameter.length = (dropna rows).length ∧
    ds.diametricalStrain.length = (dropna rows).length ∧
    ds.convertedStrainRate.length = (dropna rows).length ∧
    ds.convertedTime =
      ((dropna rows).map Prod.fst).map (fun t => t / timeFactor units.timeUnit) := by
  obtain ⟨hlen, rfl⟩ := transform_eq_ok_iff.mp h
  obtain ⟨tu, du, sru⟩ := units
  refine ⟨?_, ?_, ?_, ?_, ?_⟩ <;>
    cases tu <;> cases du <;> cases sru <;>
      simp [computeSeries, convertTime, convertDiameter, convertStrainRate,
        convertTime_eq_map, savgolFilter52_length, npGradient_length, timeFactor]

/-- Witness for claim C6 at the concrete scenario input. -/
theorem series_lengths_aligned_witness :
    (computeSeries (dropna constRows) 10 unitsDefault).convertedTime.length =
      (dropna constRows).length ∧
    (computeSeries (dropna constRows) 10 unitsDefault).convertedDiameter.length =
      (dropna constRows).length ∧
    (computeSeries (dropna constRows) 10 unitsDefault).diametricalStrain.length =
      (dropna constRows).length ∧
    (computeSeries (dropna constRows) 10 unitsDefault).convertedStrainRate.length =
      (dropna constRows).length ∧
    (computeSeries (dropna constRows) 10 unitsDefault).convertedTime =
      ((dropna constRows).map Prod.fst).map
        (fun t => t / timeFactor unitsDefault.timeUnit) :=
  series_lengths_aligned constRows 10 unitsDefault
    (computeSeries (dropna constRows) 10 unitsDefault) rfl

/-- Claim C8: the pipeline is deterministic and stateless — on any successful
invocation the stored result is `some ds` where `ds` is a function of the raw
rows, the reference diameter and the unit selection alone; two invocations
from arbitrary (possibly different) prior widget states store the identical
value, so no carried-over state influences the result. -/
theorem transform_deterministic_stateless (rows : List (Option ℚ × Option ℚ))
    (ref : ℚ) (units : UnitSelection) (ds : DerivedSeries) (s1 s2 : AppState)
    (h : transform rows ref units = Except.ok ds) :
    (plotData s1 rows ref units).calculatedData = some ds ∧
    (plotData s2 rows ref units).calculatedData = some ds := by
  simp [plotData, h]

/-- Witness for claim C8: the scenario input invoked from a previously
rendered state and from a fresh state stores the same series. -/
theorem transform_deterministic_stateless_witness :
    (plotData preState constRows 10 unitsDefault).calculatedData =
      some (computeSeries (dropna constRows) 10 unitsDefault) ∧
    (plotData emptyState constRows 10 unitsDefault).calculatedData =
      some (computeSeries (dropna constRows) 10 unitsDefault) :=
  transform_deterministic_stateless constRows 10 unitsDefault
    (computeSeries (dropna constRows) 10 unitsDefault) preState emptyState rfl

/-- Claim C9: `calculated_data` is assigned (line 579) only after every
computation step has succeeded, so a failing invocation leaves the previously
stored `calculated_data` unchanged and never exposes a partial result to the
export consumers. -/
theorem failed_transform_preserves_calculated_data (st : AppState)
    (rows : List (Option ℚ × Option ℚ)) (ref : ℚ) (units : UnitSelection)
    (e : PipelineError) (h : transform rows ref units = Except.error e) :
    (plotData st rows ref units).calculatedData = st.calculatedData := by
  simp [plotData, h]

/-- Witness for claim C9 at a concrete failing invocation. -/
theorem failed_transform_preserves_calculated_data_witness :
    (plotData preState rows3 1 unitsDefault).calculatedData =
      preState.calculatedData :=
  failed_transform_preserves_calculated_data preState rows3 1 unitsDefault
    PipelineError.insufficientData rfl

/-- Claim C10: when the cleaned time values are strictly increasing (each
adjacent pair distinct and ordered), every divisor used by the strain-rate
gradient step — the adjacent spacings for the one-sided end differences and
the products of spacings and their pairwise sums for the interior formula —
is strictly positive, so no division by zero can occur in the gradient. -/
theorem gradient_divisors_positive (x : List ℚ) (hlen : 2 ≤ x.length)
    (hmono : ∀ i, i + 1 < x.length → x.getD i 0 < x.getD (i+1) 0) :
    allPos (npGradientDivisors x) := by
  intro d hd
  simp only [npGradientDivisors, List.mem_cons, List.mem_flatten,
    List.mem_map] at hd
  rcases hd with h1 | h2 | ⟨l, ⟨i, hi, hl⟩, hdl⟩
  · have h := hmono 0 (by omega)
    subst h1
    exact sub_pos.mpr h
  · have h := hmono (x.length - 2) (by omega)
    have e : x.length - 2 + 1 = x.length - 1 := by omega
    rw [e] at h
    subst h2
    exact sub_pos.mpr h
  · by_cases hc : i = 0 ∨ i = x.length - 1
    · rw [if_pos hc] at hl
      subst hl
      simp at hdl
    · rw [if_neg hc] at hl
      push_neg at hc
      obtain ⟨hc0, hcl⟩ := hc
      have hir : i < x.length := List.mem_range.mp hi
      have hsp : 0 < x.getD i 0 - x.getD (i-1) 0 := by
        have h := hmono (i-1) (by omega)
        have e : i - 1 + 1 = i := by omega
        rw [e] at h
        exact sub_pos.mpr h
      have hdp : 0 < x.getD (i+1) 0 - x.getD i 0 :=
        sub_pos.mpr (hmono i (by omega))
      subst hl
      simp only [List.mem_cons, List.not_mem_nil, or_false] at hdl
      rcases hdl with rfl | rfl | rfl
      · exact mul_pos hsp (by linarith)
      · exact mul_pos hsp hdp
      · exact mul_pos hdp (by linarith)

/-- Witness for claim C10 on the strictly increasing time column of the
scenario input. -/
theorem gradient_divisors_positive_witness :
    allPos (npGradientDivisors [0, 1, 2, 3, 4]) :=
  gradient_divisors_positive [0, 1, 2, 3, 4] (by norm_num)
    (by
      intro i hi
      simp only [List.length_cons, List.length_nil] at hi
      have h4 : i < 4 := by omega
      interval_cases i <;> decide)

end CsvPlotter
